import Mathlib

set_option linter.unusedVariables false

/-! Verification of the cdd-backend Express/Supabase request handlers.

Each database table is embedded as a Lean list of row structures, each
request handler as a pure function from the request data and the current
tables to an HTTP status code and the updated tables.  Outcomes of remote
calls that can fail independently of the data (network errors of the
hosted database) are passed in as explicit parameters, as are the values
the environment supplies (the bcrypt hash function, the id the database
assigns to a fresh row). -/

/-- Row of the useraccount table: columns userid, username, email,
password (the bcrypt hash), admin flag, avatar URL. -/
structure UserRow where
  userid : Nat
  username : String
  email : String
  password : String
  admin : Nat
  avatar_url : Option String
  deriving Repr, DecidableEq

/-- POST /register of the current iteration (src/server.js lines 114-198;
the earliest iteration in src/unnamed/part_000 lines 88-141 has the same
duplicate-check-then-insert shape): select the useraccount rows whose
email equals the requested email; if any exist answer 400, otherwise hash
the password with bcrypt and insert the new row.  `hash` stands for
bcrypt.hash with its salt fixed and `freshId` for the id the database
assigns to the inserted row.  The result is the HTTP status together with
the useraccount table after the handler ran. -/
def register (db : List UserRow) (username email password : String)
    (admin : Bool) (hash : String → String) (freshId : Nat)
    (avatar_url : Option String) : Nat × List UserRow :=
  let existing := db.filter (fun u => u.email == email)
  if existing.length ≠ 0 then
    (400, db)
  else
    let hashed := hash password
    let newRow : UserRow :=
      { userid := freshId, username := username, email := email,
        password := hashed, admin := if admin then 1 else 0,
        avatar_url := avatar_url }
    (201, db ++ [newRow])

/-- Row of the vgwishlist table as the removal handler touches it. -/
structure WishRow where
  wishlistid : Nat
  userid : Nat
  gameid : Nat
  deriving Repr, DecidableEq

/-- DELETE /api/removewishlist/:userId/:gameId (src/server.js lines
515-564; identical in src/unnamed/part_000 lines 369-418): first select
the vgwishlist rows matching (userid, gameid); if none exist answer 404
without issuing a delete; otherwise delete the matching rows and answer
200 (the delete call of the client library returns null data when no
representation is requested, so the 200 branch of the final check is the
one taken).  The Bool in the result records whether a delete call was
issued against the remote table. -/
def removeWishlist (db : List WishRow) (userId gameId : Nat) :
    Nat × List WishRow × Bool :=
  let existingGame := db.filter (fun r => r.userid == userId && r.gameid == gameId)
  if existingGame.length = 0 then
    (404, db, false)
  else
    (200, db.filter (fun r => !(r.userid == userId && r.gameid == gameId)), true)

/-- Sample useraccount row used by concrete witnesses. -/
def sampleUser : UserRow :=
  { userid := 1, username := "alice", email := "a@x.io", password := "hash1",
    admin := 0, avatar_url := none }

/-- C1: for every registration request whose email already matches an
existing useraccount row, POST /register answers HTTP 400 and the
useraccount table is left unchanged, no row being inserted; the duplicate
check is the existence check that runs before the insert. -/
theorem register_duplicate_email (db : List UserRow)
    (username email password : String) (admin : Bool)
    (hash : String → String) (freshId : Nat) (avatar_url : Option String)
    (hdup : ∃ u ∈ db, u.email = email) :
    register db username email password admin hash freshId avatar_url = (400, db) := by
  obtain ⟨u, hu, he⟩ := hdup
  have hmem : u ∈ db.filter (fun v => v.email == email) := by
    simp [List.mem_filter, hu, he]
  have hne : (db.filter (fun v => v.email == email)).length ≠ 0 := by
    intro h0
    rw [List.length_eq_zero] at h0
    rw [h0] at hmem
    exact List.not_mem_nil u hmem
  simp [register, hne]

/-- Witness for C1: registering a second user with the email of
`sampleUser` answers 400 and leaves the one-row table unchanged. -/
theorem register_duplicate_email_witness :
    register [sampleUser] "bob" "a@x.io" "pw" false (fun s => s) 2 none
      = (400, [sampleUser]) :=
  register_duplicate_email [sampleUser] "bob" "a@x.io" "pw" false
    (fun s => s) 2 none ⟨sampleUser, by simp [sampleUser]⟩

/-- C2: for every user id and game id with no vgwishlist row for that
(userid, gameid) pair, DELETE /api/removewishlist answers HTTP 404, no
delete is issued, and the wishlist table is unchanged. -/
theorem removeWishlist_missing (db : List WishRow) (userId gameId : Nat)
    (hnone : ∀ r ∈ db, ¬(r.userid = userId ∧ r.gameid = gameId)) :
    removeWishlist db userId gameId = (404, db, false) := by
  have hfil : db.filter (fun r => r.userid == userId && r.gameid == gameId) = [] := by
    rw [List.filter_eq_nil_iff]
    intro r hr
    have := hnone r hr
    simp only [Bool.and_eq_true, beq_iff_eq]
    exact fun hc => this ⟨hc.1, hc.2⟩
  simp [removeWishlist, hfil]

/-- Witness for C2: removing game 7 for user 1 from a wishlist holding
only game 5 answers 404 and changes nothing. -/
theorem removeWishlist_missing_witness :
    removeWishlist [⟨10, 1, 5⟩] 1 7 = (404, [⟨10, 1, 5⟩], false) :=
  removeWishlist_missing [⟨10, 1, 5⟩] 1 7 (by decide)

/-- JWT payload as generateAccessToken signs it (src/server.js lines
79-83): userId, username and admin flag. -/
structure Payload where
  userId : Nat
  username : String
  admin : Nat
  deriving Repr, DecidableEq

/-- Signed JWT: the payload together with the secret it was signed with.
Verification with a secret succeeds exactly when the secrets agree, which
models an unforgeable signature. -/
structure Token where
  payload : Payload
  secret : String
  deriving Repr, DecidableEq

/-- jwt.sign of the access-token payload with JWT_SECRET. -/
def generateAccessToken (u : UserRow) (secret : String) : Token :=
  { payload := { userId := u.userid, username := u.username, admin := u.admin },
    secret := secret }

/-- jwt.verify: returns the payload when the token was signed with the
given secret, nothing otherwise. -/
def verifyToken (t : Token) (secret : String) : Option Payload :=
  if t.secret == secret then some t.payload else none

/-- Value of a JSON response field. -/
inductive JVal where
  | str : String → JVal
  | num : Nat → JVal
  | nil : JVal
  deriving Repr, DecidableEq

/-- safeUser object of POST /login (src/server.js line 221): only userid,
username, email and admin are copied out of the fetched row. -/
def safeUserLogin (u : UserRow) : List (String × JVal) :=
  [("userid", .num u.userid), ("username", .str u.username),
   ("email", .str u.email), ("admin", .num u.admin)]

/-- safeUser object of POST /register (src/server.js lines 185-191): the
login fields plus the avatar URL. -/
def safeUserRegister (u : UserRow) : List (String × JVal) :=
  [("userid", .num u.userid), ("username", .str u.username),
   ("email", .str u.email), ("admin", .num u.admin),
   ("avatar", match u.avatar_url with | some s => .str s | none => .nil)]

/-- POST /login (src/server.js lines 202-223): fetch the useraccount rows
matching the username, take the first, compare the password with bcrypt
(`compare` stands for bcrypt.compare on the stored hash); on success sign
an access token and answer 200 with the safe user object, otherwise 401. -/
def login (compare : String → String → Bool) (db : List UserRow)
    (username password : String) (secret : String) :
    Nat × Option (Token × List (String × JVal)) :=
  let users := db.filter (fun u => u.username == username)
  match users.head? with
  | none => (401, none)
  | some user =>
    if compare password user.password then
      (200, some (generateAccessToken user secret, safeUserLogin user))
    else
      (401, none)

/-- Passport JWT strategy (src/server.js lines 60-76): verify the bearer
token against JWT_SECRET, then select the single useraccount row whose
userid equals payload.userId; authentication succeeds exactly when the
verification succeeds and exactly one row matches. -/
def jwtAuthenticate (db : List UserRow) (t : Token) (secret : String) :
    Option UserRow :=
  match verifyToken t secret with
  | none => none
  | some payload =>
    match db.filter (fun u => u.userid == payload.userId) with
    | [u] => some u
    | _ => none

/-- C3: when bcrypt comparison of p against the stored hash of row u
succeeds, POST /login with the username of u answers 200 with an access
token, and the JWT strategy run on that token with the same secret
authenticates as the same row u; a wrong password or an unknown username
answers 401.  The hypotheses say that u is the row the username lookup
returns first and that userid is a key of the table. -/
theorem login_token_roundtrip (compare : String → String → Bool)
    (db : List UserRow) (secret : String) (u : UserRow)
    (hfirst : (db.filter (fun v => v.username == u.username)).head? = some u)
    (hkey : db.filter (fun v => v.userid == u.userid) = [u]) :
    (∀ p, compare p u.password = true →
      login compare db u.username p secret
        = (200, some (generateAccessToken u secret, safeUserLogin u)) ∧
      jwtAuthenticate db (generateAccessToken u secret) secret = some u) ∧
    (∀ p, compare p u.password = false →
      (login compare db u.username p secret).1 = 401) ∧
    (∀ name p, db.filter (fun v => v.username == name) = [] →
      (login compare db name p secret).1 = 401) := by
  refine ⟨?_, ?_, ?_⟩
  · intro p hp
    constructor
    · simp [login, hfirst, hp]
    · simp [jwtAuthenticate, verifyToken, generateAccessToken, hkey]
  · intro p hp
    simp [login, hfirst, hp]
  · intro name p hnone
    simp [login, hnone]

/-- Witness for C3: logging in as `sampleUser` with the matching password
yields a token that the JWT strategy maps back to `sampleUser`. -/
theorem login_token_roundtrip_witness :
    login (fun p h => p == h) [sampleUser] "alice" "hash1" "s"
      = (200, some (generateAccessToken sampleUser "s", safeUserLogin sampleUser)) ∧
    jwtAuthenticate [sampleUser] (generateAccessToken sampleUser "s") "s"
      = some sampleUser :=
  (login_token_roundtrip (fun p h => p == h) [sampleUser] "s" sampleUser
    (by decide) (by decide)).1 "hash1" (by decide)

/-- Row of the vgcollection table. -/
structure CollRow where
  collectionid : Nat
  userid : Nat
  gameid : Nat
  gamedetailsid : Option Nat
  deriving Repr, DecidableEq

/-- TotalUsers report (src/server.js lines 1185-1192): fetch the userid
column of every useraccount row and take the length of the array. -/
def totalUsersReport (useraccount : List UserRow) : Nat :=
  (useraccount.map (fun u => u.userid)).length

/-- TotalCollections report (src/server.js lines 1195-1202): fetch the
collectionid column of every vgcollection row and take the length. -/
def totalCollectionsReport (vgcollection : List CollRow) : Nat :=
  (vgcollection.map (fun c => c.collectionid)).length

/-- TotalWishlists report (src/server.js lines 1341-1348): fetch every
vgwishlist row and take the length. -/
def totalWishlistsReport (vgwishlist : List WishRow) : Nat :=
  vgwishlist.length

/-- C4: for every state of the remote tables, the TotalUsers,
TotalCollections and TotalWishlists reports return a count equal to the
number of rows of the respective table, computed as the length of the
fetched row array. -/
theorem report_counts_match_cardinality (useraccount : List UserRow)
    (vgcollection : List CollRow) (vgwishlist : List WishRow) :
    totalUsersReport useraccount = useraccount.length ∧
    totalCollectionsReport vgcollection = vgcollection.length ∧
    totalWishlistsReport vgwishlist = vgwishlist.length := by
  refine ⟨?_, ?_, rfl⟩ <;>
    simp [totalUsersReport, totalCollectionsReport, List.length_map]

/-- C10: the user object of a successful login contains exactly the
fields userid, username, email and admin, the one of a successful
registration additionally avatar, and neither ever contains the password
column of the fetched row. -/
theorem safeUser_never_leaks_password (u : UserRow) :
    (safeUserLogin u).map Prod.fst = ["userid", "username", "email", "admin"] ∧
    (safeUserRegister u).map Prod.fst
      = ["userid", "username", "email", "admin", "avatar"] ∧
    "password" ∉ (safeUserLogin u).map Prod.fst ∧
    "password" ∉ (safeUserRegister u).map Prod.fst := by
  refine ⟨rfl, rfl, ?_, ?_⟩ <;> simp [safeUserLogin, safeUserRegister]

/-- Row of the gameinfo table in the current iteration (the console links
live in a separate join table). -/
structure GameInfoRow where
  gameid : Nat
  name : String
  coverart : String
  deriving Repr, DecidableEq

/-- Keys of the JS gameCount object built by the MostCollectedGame report
(src/server.js lines 1213-1216): the distinct gameids, visited by the
for-in loop in ascending numeric order since they are integer-like
keys. -/
def gameCountKeys (l : List Nat) : List Nat :=
  (l.dedup).insertionSort (· ≤ ·)

/-- Body of the loop at src/server.js lines 1221-1226: keep the first
gameid whose occurrence count strictly exceeds the maximum seen so far.
`List.count g l` is exactly the value gameCount holds for key g. -/
def mcStep (l : List Nat) (acc : Option Nat × Nat) (g : Nat) : Option Nat × Nat :=
  if List.count g l > acc.2 then (some g, List.count g l) else acc

/-- Scan of the MostCollectedGame report over the key set, starting from
mostCollectedGameId = null and maxCount = 0. -/
def mostCollectedScan (l : List Nat) : Option Nat × Nat :=
  (gameCountKeys l).foldl (mcStep l) (none, 0)

/-- MostCollectedGame report (src/server.js lines 1205-1243): fetch the
gameid column of vgcollection, count occurrences in application memory,
scan for a gameid of maximal count; when one was found look up its single
gameinfo row and return it with the count, otherwise return count 0.  The
error case is the final .single() lookup not finding exactly one gameinfo
row. -/
def mostCollectedGameReport (vgcollection : List Nat)
    (gameinfo : List GameInfoRow) : Except Unit (Option GameInfoRow × Nat) :=
  match mostCollectedScan vgcollection with
  | (none, _) => .ok (none, 0)
  | (some g, m) =>
    match gameinfo.filter (fun r => r.gameid == g) with
    | [row] => .ok (some row, m)
    | _ => .error ()

/-- Membership in the key set coincides with membership in the fetched
gameid list. -/
lemma mem_gameCountKeys (l : List Nat) (g : Nat) :
    g ∈ gameCountKeys l ↔ g ∈ l := by
  unfold gameCountKeys
  rw [(List.perm_insertionSort _ _).mem_iff, List.mem_dedup]

/-- Invariant of the scan loop: the accumulator either survives
unchanged or holds some visited key together with its count, its count
never decreases, and at the end it dominates the count of every visited
key. -/
lemma foldl_mcStep_spec (l : List Nat) (ks : List Nat) :
    ∀ acc : Option Nat × Nat,
      (ks.foldl (mcStep l) acc = acc ∨
        ∃ g ∈ ks, ks.foldl (mcStep l) acc = (some g, List.count g l)) ∧
      acc.2 ≤ (ks.foldl (mcStep l) acc).2 ∧
      ∀ g ∈ ks, List.count g l ≤ (ks.foldl (mcStep l) acc).2 := by
  induction ks with
  | nil => intro acc; simp
  | cons k ks ih =>
    intro acc
    obtain ⟨ih1, ih2, ih3⟩ := ih (mcStep l acc k)
    have hstep : acc.2 ≤ (mcStep l acc k).2 := by
      unfold mcStep
      split
      · next h => exact Nat.le_of_lt h
      · exact le_rfl
    have hstepk : List.count k l ≤ (mcStep l acc k).2 := by
      unfold mcStep
      split
      · exact le_rfl
      · next h => exact Nat.le_of_not_lt h
    refine ⟨?_, ?_, ?_⟩
    · rcases ih1 with h | ⟨g, hg, hE⟩
      · by_cases hc : List.count k l > acc.2
        · refine Or.inr ⟨k, List.mem_cons_self k ks, ?_⟩
          rw [List.foldl_cons, h]
          simp [mcStep, hc]
        · refine Or.inl ?_
          rw [List.foldl_cons, h]
          simp [mcStep, hc]
      · exact Or.inr ⟨g, List.mem_cons_of_mem k hg, by rw [List.foldl_cons]; exact hE⟩
    · exact le_trans hstep (by rw [List.foldl_cons]; exact ih2)
    · intro g hg
      rcases List.mem_cons.mp hg with rfl | hg'
      · exact le_trans hstepk (by rw [List.foldl_cons]; exact ih2)
      · rw [List.foldl_cons]; exact ih3 g hg'

/-- C5: for a non-empty vgcollection table the MostCollectedGame report
finds a gameid of maximal occurrence count among the fetched gameids and,
when the gameinfo lookup finds its single row, returns that game together
with a count equal to the maximum; for an empty table it returns count 0. -/
theorem mostCollectedGame_report_correct (l : List Nat) (gi : List GameInfoRow) :
    (l = [] → mostCollectedGameReport l gi = .ok (none, 0)) ∧
    (l ≠ [] → ∃ g ∈ l, (∀ x ∈ l, List.count x l ≤ List.count g l) ∧
      mostCollectedScan l = (some g, List.count g l) ∧
      ∀ row, gi.filter (fun r => r.gameid == g) = [row] →
        mostCollectedGameReport l gi = .ok (some row, List.count g l)) := by
  constructor
  · rintro rfl
    rfl
  · intro hne
    obtain ⟨hcase, _, hmax⟩ := foldl_mcStep_spec l (gameCountKeys l) (none, 0)
    have hscan : mostCollectedScan l = (gameCountKeys l).foldl (mcStep l) (none, 0) := rfl
    obtain ⟨x, hx⟩ := List.exists_mem_of_ne_nil l hne
    have hxk : x ∈ gameCountKeys l := (mem_gameCountKeys l x).mpr hx
    rcases hcase with h0 | ⟨g, hgk, hg⟩
    · exfalso
      have hle := hmax x hxk
      rw [h0] at hle
      have hpos : 0 < List.count x l := List.count_pos_iff.mpr hx
      simp at hle
      omega
    · have hgl : g ∈ l := (mem_gameCountKeys l g).mp hgk
      refine ⟨g, hgl, ?_, ?_, ?_⟩
      · intro y hy
        have := hmax y ((mem_gameCountKeys l y).mpr hy)
        rw [hg] at this
        exact this
      · rw [hscan, hg]
      · intro row hrow
        have hs : mostCollectedScan l = (some g, List.count g l) := by rw [hscan, hg]
        simp [mostCollectedGameReport, hs, hrow]

/-- Witness for C5: on the empty table the report returns count 0, and on
the table with gameids 3, 5, 3 it returns a maximal gameid. -/
theorem mostCollectedGame_report_correct_witness :
    (mostCollectedGameReport [] [⟨3, "zelda", "art"⟩] = .ok (none, 0)) ∧
    (∃ g ∈ [3, 5, 3], (∀ x ∈ [3, 5, 3],
        List.count x [3, 5, 3] ≤ List.count g [3, 5, 3]) ∧
      mostCollectedScan [3, 5, 3] = (some g, List.count g [3, 5, 3]) ∧
      ∀ row, List.filter (fun r => r.gameid == g) [⟨3, "zelda", "art"⟩] = [row] →
        mostCollectedGameReport [3, 5, 3] [⟨3, "zelda", "art"⟩]
          = .ok (some row, List.count g [3, 5, 3])) :=
  ⟨(mostCollectedGame_report_correct [] [⟨3, "zelda", "art"⟩]).1 rfl,
   (mostCollectedGame_report_correct [3, 5, 3] [⟨3, "zelda", "art"⟩]).2 (by decide)⟩

/-- Row of the gameinfo table in the earliest iteration, where the
console is a column of the row itself. -/
structure GameRowV0 where
  gameid : Nat
  name : String
  console : String
  coverart : String
  deriving Repr, DecidableEq

/-- POST /add-game-to-database of the earliest iteration
(src/unnamed/part_000 lines 186-229; the same handler text recurs at
src/server.js lines 3769-3812): select the gameinfo rows whose name and
console both match; if any exist answer 420 without inserting; otherwise
require the cover art and insert the row. -/
def addGameToDatabaseV0 (db : List GameRowV0) (Name Console : String)
    (coverArt : Option String) (freshId : Nat) : Nat × List GameRowV0 :=
  let existingGames := db.filter (fun r => r.name == Name && r.console == Console)
  if existingGames.length > 0 then
    (420, db)
  else
    match coverArt with
    | some art => (200, db ++ [⟨freshId, Name, Console, art⟩])
    | none => (400, db)

/-- C6: when some gameinfo row already matches the requested Name and
Console, POST /add-game-to-database answers HTTP 420 and inserts no
row. -/
theorem addGame_duplicate_responds_420 (db : List GameRowV0)
    (Name Console : String) (coverArt : Option String) (freshId : Nat)
    (hdup : ∃ r ∈ db, r.name = Name ∧ r.console = Console) :
    addGameToDatabaseV0 db Name Console coverArt freshId = (420, db) := by
  obtain ⟨r, hr, hn, hc⟩ := hdup
  have hmem : r ∈ db.filter (fun v => v.name == Name && v.console == Console) := by
    simp [List.mem_filter, hr, hn, hc]
  have hpos : (db.filter (fun v => v.name == Name && v.console == Console)).length > 0 :=
    List.length_pos.mpr (fun h => by rw [h] at hmem; exact List.not_mem_nil r hmem)
  simp [addGameToDatabaseV0, hpos]

/-- Witness for C6: re-adding the one game already present answers 420
and leaves the table unchanged. -/
theorem addGame_duplicate_responds_420_witness :
    addGameToDatabaseV0 [⟨1, "halo", "xbox", "art"⟩] "halo" "xbox" (some "art2") 2
      = (420, [⟨1, "halo", "xbox", "art"⟩]) :=
  addGame_duplicate_responds_420 [⟨1, "halo", "xbox", "art"⟩] "halo" "xbox"
    (some "art2") 2 ⟨⟨1, "halo", "xbox", "art"⟩, by decide⟩

/-- Row of the gameinfo_console join table. -/
structure LinkRow where
  gameid : Nat
  consoleid : Nat
  deriving Repr, DecidableEq

/-- State of the two tables the current add-game handler touches. -/
structure GameDb where
  gameinfo : List GameInfoRow
  gameinfo_console : List LinkRow
  deriving Repr, DecidableEq

/-- POST /add-game-to-database of the current iteration (src/server.js
lines 264-307): require the cover art, insert the gameinfo row, then
insert one gameinfo_console link per console id.  The two Booleans are
the success of the two remote inserts; on a failed second insert the
handler only answers 500, with no compensating delete of the first
insert. -/
def addGameToDatabase (db : GameDb) (Name coverArtB64 : String)
    (hasCoverArt : Bool) (consoleIds : List Nat)
    (insertGameOk linkInsertOk : Bool) (freshId : Nat) : Nat × GameDb :=
  if !hasCoverArt then
    (400, db)
  else if !insertGameOk then
    (500, db)
  else
    let db1 := { db with gameinfo := db.gameinfo ++ [⟨freshId, Name, coverArtB64⟩] }
    if !linkInsertOk then
      (500, db1)
    else
      (200, { db1 with
        gameinfo_console :=
          db1.gameinfo_console ++ consoleIds.map (fun cid => ⟨freshId, cid⟩) })

/-- C7: when the gameinfo insert succeeds and the gameinfo_console insert
fails, the handler answers HTTP 500, the freshly inserted gameinfo row is
still present afterwards (no compensating delete), and no link row was
added, so the new row is orphaned and the two-step operation is not
atomic. -/
theorem addGame_partial_failure_leaves_orphan (db : GameDb)
    (Name coverArtB64 : String) (consoleIds : List Nat) (freshId : Nat) :
    (addGameToDatabase db Name coverArtB64 true consoleIds true false freshId).1 = 500 ∧
    (⟨freshId, Name, coverArtB64⟩ : GameInfoRow) ∈
      (addGameToDatabase db Name coverArtB64 true consoleIds true false freshId).2.gameinfo ∧
    (addGameToDatabase db Name coverArtB64 true consoleIds true false freshId).2.gameinfo
      = db.gameinfo ++ [⟨freshId, Name, coverArtB64⟩] ∧
    (addGameToDatabase db Name coverArtB64 true consoleIds true false freshId).2.gameinfo_console
      = db.gameinfo_console := by
  refine ⟨rfl, ?_, rfl, rfl⟩
  simp [addGameToDatabase]

/-- Pair of user ids a friendships row or a chat_threads row stores. -/
structure PairRow where
  user_a : Nat
  user_b : Nat
  deriving Repr, DecidableEq

/-- Tables touched by the accept-friend handler: pending directed
requests (requester_id, target_id), friendships and chat threads. -/
structure FriendState where
  friend_requests : List (Nat × Nat)
  friendships : List PairRow
  chat_threads : List PairRow
  deriving Repr, DecidableEq

/-- POST /api/friends/accept/:requesterId (src/server.js lines
1654-1691): delete the pending request, insert the friendships row keyed
by the ordered pair [min, max] of the two ids, and upsert the
chat_threads row on the same ordered pair (the upsert inserts only when
no row with that key exists). -/
def acceptFriend (st : FriendState) (me requester : Nat) : FriendState :=
  let requests := st.friend_requests.filter
    (fun rq => !(rq.1 == requester && rq.2 == me))
  let a := min me requester
  let b := max me requester
  let friendships := st.friendships ++ [⟨a, b⟩]
  let threads :=
    if st.chat_threads.any (fun t => t.user_a == a && t.user_b == b) then
      st.chat_threads
    else
      st.chat_threads ++ [⟨a, b⟩]
  { friend_requests := requests, friendships := friendships, chat_threads := threads }

/-- C9: every friendships row and every chat_threads row the accept
handler creates carries user_a equal to the minimum and user_b equal to
the maximum of the two user ids, so user_a is at most user_b and the
stored friendship does not depend on who requested. -/
theorem acceptFriend_rows_ordered (st : FriendState) (me requester : Nat) :
    (∀ r ∈ (acceptFriend st me requester).friendships,
      r ∈ st.friendships ∨
        (r.user_a = min me requester ∧ r.user_b = max me requester ∧
          r.user_a ≤ r.user_b)) ∧
    (∀ r ∈ (acceptFriend st me requester).chat_threads,
      r ∈ st.chat_threads ∨
        (r.user_a = min me requester ∧ r.user_b = max me requester ∧
          r.user_a ≤ r.user_b)) := by
  constructor
  · intro r hr
    rcases List.mem_append.mp hr with h | h
    · exact Or.inl h
    · rcases List.mem_singleton.mp h with rfl
      exact Or.inr ⟨rfl, rfl, min_le_max⟩
  · intro r hr
    unfold acceptFriend at hr
    by_cases hany : st.chat_threads.any
        (fun t => t.user_a == min me requester && t.user_b == max me requester)
    · simp only [hany, if_true] at hr
      exact Or.inl hr
    · simp only [hany, if_false] at hr
      rcases List.mem_append.mp hr with h | h
      · exact Or.inl h
      · rcases List.mem_singleton.mp h with rfl
        exact Or.inr ⟨rfl, rfl, min_le_max⟩

/-- Witness for C9: accepting the request from user 3 as user 5 on empty
tables yields the single friendships row (3, 5). -/
theorem acceptFriend_rows_ordered_witness :
    (⟨3, 5⟩ : PairRow) ∈ FriendState.friendships ⟨[(3, 5)], [], []⟩ ∨
      ((PairRow.mk 3 5).user_a = min 5 3 ∧ (PairRow.mk 3 5).user_b = max 5 3 ∧
        (PairRow.mk 3 5).user_a ≤ (PairRow.mk 3 5).user_b) :=
  (acceptFriend_rows_ordered ⟨[(3, 5)], [], []⟩ 5 3).1 ⟨3, 5⟩ (by decide)

/-- JavaScript value as the addGameDetails helper handles it: a number or
the undefined value that destructuring a missing property yields. -/
inductive JsVal where
  | undef : JsVal
  | num : Nat → JsVal
  deriving Repr, DecidableEq

/-- Variable environment of the helper body: declared names bound to
values. -/
def JsEnv : Type := List (String × JsVal)

/-- Reading an identifier: a declared name yields its value, an
undeclared name throws a ReferenceError (reads of undeclared identifiers
throw in JavaScript, they do not yield undefined). -/
def lookupVar (env : JsEnv) (x : String) : Except String JsVal :=
  match List.find? (fun p => p.1 == x) env with
  | some p => .ok p.2
  | none => .error "ReferenceError"

/-- Property access on an object: a missing property yields undefined. -/
def getProp (obj : List (String × JsVal)) (k : String) : JsVal :=
  match List.find? (fun p => p.1 == k) obj with
  | some p => p.2
  | none => JsVal.undef

/-- Database call the helper can issue: the GameDetails insert returning
the fresh gamedetailsid, or the vgcollection insert with the three field
values UserId, GameId, GameDetailsId. -/
inductive DbOp where
  | insertGameDetails : Nat → DbOp
  | insertVgcollection : JsVal → JsVal → JsVal → DbOp
  deriving Repr, DecidableEq

/-- addGameDetails helper of the earliest iteration
(src/unnamed/part_000 lines 555-598): insert the GameDetails row and
select its lowercase gamedetailsid column; destructure GameDetailsId out
of the returned row (the column name differs, so the binding is
undefined); then build the vgcollection insert record, whose
GameDetailsId field is the identifier gamedetailsid — a name never
declared in the function, so evaluating it throws.  The result is the
list of database calls issued together with either the returned Bool or
the thrown error. -/
def addGameDetails (userId gameId freshGameDetailsId : Nat) :
    List DbOp × Except String Bool :=
  let gameDetailsData : List (String × JsVal) :=
    [("gamedetailsid", JsVal.num freshGameDetailsId)]
  let env : JsEnv :=
    [("GameDetailsId", getProp gameDetailsData "GameDetailsId"),
     ("userId", JsVal.num userId), ("gameId", JsVal.num gameId)]
  match lookupVar env "userId" with
  | .error e => ([DbOp.insertGameDetails freshGameDetailsId], .error e)
  | .ok u =>
    match lookupVar env "gameId" with
    | .error e => ([DbOp.insertGameDetails freshGameDetailsId], .error e)
    | .ok g =>
      match lookupVar env "gamedetailsid" with
      | .error e => ([DbOp.insertGameDetails freshGameDetailsId], .error e)
      | .ok gd =>
        ([DbOp.insertGameDetails freshGameDetailsId,
          DbOp.insertVgcollection u g gd], .ok true)

/-- C8 counterexample: at the concrete input (1, 2, 3) the helper never
issues a vgcollection insert at all — in particular none whose
GameDetailsId value is undefined — because reading the undeclared
identifier gamedetailsid throws before the insert call runs. -/
theorem addGameDetails_no_undefined_insert :
    ¬ ∃ u g, DbOp.insertVgcollection u g JsVal.undef ∈ (addGameDetails 1 2 3).1 := by
  rintro ⟨u, g, hmem⟩
  have htrace : (addGameDetails 1 2 3).1 = [DbOp.insertGameDetails 3] := by rfl
  rw [htrace] at hmem
  simp at hmem

/-- C8 amended: the destructured GameDetailsId is indeed undefined (the
selected column is lowercase gamedetailsid), but the vgcollection insert
references the undeclared identifier gamedetailsid, so for every input
the helper throws a ReferenceError before the insert, issues no
vgcollection insert, never returns, and therefore can never link a
collection row to the freshly inserted game-details row. -/
theorem addGameDetails_always_throws (userId gameId freshGameDetailsId : Nat) :
    getProp [("gamedetailsid", JsVal.num freshGameDetailsId)] "GameDetailsId"
      = JsVal.undef ∧
    (addGameDetails userId gameId freshGameDetailsId).2 = .error "ReferenceError" ∧
    ∀ u g gd, DbOp.insertVgcollection u g gd ∉
      (addGameDetails userId gameId freshGameDetailsId).1 := by
  refine ⟨rfl, rfl, ?_⟩
  intro u g gd hmem
  have htrace : (addGameDetails userId gameId freshGameDetailsId).1
      = [DbOp.insertGameDetails freshGameDetailsId] := by rfl
  rw [htrace] at hmem
  simp at hmem

/-- Witness for C8: at the concrete input (1, 2, 3) the vgcollection
insert built from the helper parameters is not among the issued calls. -/
theorem addGameDetails_always_throws_witness :
    DbOp.insertVgcollection (JsVal.num 1) (JsVal.num 2) JsVal.undef
      ∉ (addGameDetails 1 2 3).1 :=
  (addGameDetails_always_throws 1 2 3).2.2 (JsVal.num 1) (JsVal.num 2) JsVal.undef
